import Mathlib

/-!
Shallow embedding of `src/src/api/process.c` (the reproc-into-Lua process
binding of lite-xl): the process handle's lifecycle state machine, the
argument-vector and environment serialization performed by `process_new`,
the redirect-mode validation, the stream operations and the finalizer.

The native reproc library is the trusted external collaborator: each of its
calls (`reproc_wait`, `reproc_read`, `reproc_write`, ...) is represented by
an oracle parameter supplying the native result, and every native call an
operation performs is recorded in an explicit trace, so that claims about
"zero further native wait calls" are statable.
-/

namespace LiteXLProcess

/-! ## Constants of the trusted native layer (reproc)

reproc error codes are negated POSIX errno values; the redirect enum is
`DEFAULT, PIPE, PARENT, DISCARD, STDOUT, HANDLE, FILE, PATH` in order
(the source's check `> REPROC_REDIRECT_STDOUT` together with its message
"redirect to handles, FILE* and paths are not supported" pins the order). -/

def REPROC_ETIMEDOUT : Int := -110

def REPROC_EPIPE : Int := -32

def REPROC_EINVAL : Int := -22

def REPROC_ENOMEM : Int := -12

def REPROC_EWOULDBLOCK : Int := -11

def REPROC_REDIRECT_DEFAULT : Int := 0

def REPROC_REDIRECT_PIPE : Int := 1

def REPROC_REDIRECT_PARENT : Int := 2

def REPROC_REDIRECT_DISCARD : Int := 3

def REPROC_REDIRECT_STDOUT : Int := 4

def REPROC_REDIRECT_HANDLE : Int := 5

def REPROC_REDIRECT_FILE : Int := 6

def REPROC_REDIRECT_PATH : Int := 7

/-- Message table of the trusted native layer (`reproc_strerror`); only the
association of some human-readable message to each code matters here. -/
def reproc_strerror (code : Int) : String :=
  if code = REPROC_ETIMEDOUT then "timed out"
  else if code = REPROC_EPIPE then "broken pipe"
  else if code = REPROC_EINVAL then "invalid argument"
  else if code = REPROC_ENOMEM then "not enough memory"
  else if code = REPROC_EWOULDBLOCK then "would block"
  else "unknown error"

/-- Stop actions of `reproc_stop` (`REPROC_STOP_NOOP/WAIT/TERMINATE/KILL`). -/
inductive StopAction where
  | noop
  | waitStop
  | terminate
  | kill
  deriving DecidableEq, Repr

/-- One call into the trusted native layer, as recorded in an operation's
trace. -/
inductive NativeCall where
  | wait (timeout : Int)
  | read (stream : Int) (size : Nat)
  | write (size : Nat)
  | close (stream : Int)
  | stop (a1 a2 a3 : StopAction × Int)
  | destroy
  | newProc
  | start
  deriving DecidableEq, Repr

/-- The `process_t` userdata struct of the source: the native reference
(`process`, modelled as held / not held), the `running` flag and the cached
`returncode`. -/
structure process_t where
  process : Bool
  running : Bool
  returncode : Int
  deriving DecidableEq, Repr

/-- A value as returned to the Lua caller: a nil, a number, a boolean, a byte
string, or the `(nil, message, code)` error triple of
`L_RETURN_REPROC_ERROR`. -/
inductive LuaResult where
  | nilValue
  | value (n : Int)
  | boolean (b : Bool)
  | bytes (data : List Int)
  | errorTriple (msg : String) (code : Int)
  deriving DecidableEq, Repr

/-- Whether a Lua-visible result is the `(nil, message, code)` error triple. -/
def isErrorTriple : LuaResult → Bool
  | LuaResult.errorTriple _ _ => true
  | _ => false

/-! ## Lifecycle operations (lines 48-56, 157-172, 182-193, 268-281, 309-317) -/

/-- Lines 48-56. `poll_process` calls `reproc_wait` (the native result is the
oracle argument `waitResult`) unconditionally — there is no early return for
an already-exited handle — and on any non-timeout result marks the handle not
running and caches the result. Returns the native result, the updated handle,
and the trace of native calls performed. -/
def poll_process (proc : process_t) (timeout : Int) (waitResult : Int) :
    Int × process_t × List NativeCall :=
  let ret := waitResult
  if ret ≠ REPROC_ETIMEDOUT then
    (ret, { proc with running := false, returncode := ret }, [NativeCall.wait timeout])
  else
    (ret, proc, [NativeCall.wait timeout])

/-- Lines 268-281. `f_wait` polls with the caller-supplied timeout (default 0)
and surfaces `REPROC_ETIMEDOUT` as the error triple (the inner `ret < 0` test
is `ASSERT_REPROC_ERRNO`); any other result is pushed as a number. -/
def f_wait (self : process_t) (timeout : Int) (waitResult : Int) :
    LuaResult × process_t × List NativeCall :=
  let p := poll_process self timeout waitResult
  if p.1 = REPROC_ETIMEDOUT then
    if p.1 < 0 then
      (LuaResult.errorTriple (reproc_strerror p.1) p.1, p.2.1, p.2.2)
    else
      (LuaResult.value p.1, p.2.1, p.2.2)
  else
    (LuaResult.value p.1, p.2.1, p.2.2)

/-- Lines 182-193. `f_returncode` polls with timeout 0, then pushes nil when
still running, else the poll result. -/
def f_returncode (self : process_t) (waitResult : Int) :
    LuaResult × process_t × List NativeCall :=
  let p := poll_process self 0 waitResult
  if p.2.1.running then
    (LuaResult.nilValue, p.2.1, p.2.2)
  else
    (LuaResult.value p.1, p.2.1, p.2.2)

/-- Lines 309-317. `f_running` polls with timeout 0 and pushes the `running`
flag. -/
def f_running (self : process_t) (waitResult : Int) :
    LuaResult × process_t × List NativeCall :=
  let p := poll_process self 0 waitResult
  (LuaResult.boolean p.2.1.running, p.2.1, p.2.2)

/-- Lines 157-172. `f_gc`: when the native reference is still held, run the
staged stop sequence `{KILL,0},{KILL,0},{TERMINATE,0}`, destroy the native
process and null the reference; otherwise do nothing. -/
def f_gc (self : process_t) : process_t × List NativeCall :=
  if self.process then
    ({ self with process := false },
      [NativeCall.stop (StopAction.kill, 0) (StopAction.kill, 0) (StopAction.terminate, 0),
        NativeCall.destroy])
  else
    (self, [])

/-- Number of native `destroy` calls in a trace. -/
def destroyCount (t : List NativeCall) : Nat :=
  (t.filter fun c => match c with | NativeCall.destroy => true | _ => false).length

/-! ## Stream operations (lines 195-218, 237-254, 256-266) -/

/-- Lines 195-218. `g_read`: one native read (oracle: result count `out` and
buffer content `buf`); on `out >= 0` the first `out` bytes become the pushed
string, and only `out == REPROC_EPIPE` (checked `< 0` by
`ASSERT_REPROC_ERRNO`) replaces the pushed string with the error triple;
every other negative result yields the empty string. -/
def g_read (self : process_t) (stream : Int) (read_size : Nat)
    (out : Int) (buf : List Int) : LuaResult × process_t × List NativeCall :=
  let calls := [NativeCall.read stream read_size]
  let pushed := if 0 ≤ out then buf.take out.toNat else []
  if out = REPROC_EPIPE then
    if out < 0 then
      (LuaResult.errorTriple (reproc_strerror out) out, self, calls)
    else
      (LuaResult.bytes pushed, self, calls)
  else
    (LuaResult.bytes pushed, self, calls)

/-- Lines 237-254. `f_write`: one native write of the data; only
`out == REPROC_EPIPE` becomes the error triple, every other result (including
other negative codes) is pushed as a bare number. -/
def f_write (self : process_t) (data : List Int) (out : Int) :
    LuaResult × process_t × List NativeCall :=
  let calls := [NativeCall.write data.length]
  if out = REPROC_EPIPE then
    (LuaResult.errorTriple (reproc_strerror out) out, self, calls)
  else
    (LuaResult.value out, self, calls)

/-- Lines 256-266. `f_close_stream`: one native close; any negative result is
surfaced as the error triple, otherwise `true` is pushed. -/
def f_close_stream (self : process_t) (stream : Int) (out : Int) :
    LuaResult × process_t × List NativeCall :=
  let calls := [NativeCall.close stream]
  if out < 0 then
    (LuaResult.errorTriple (reproc_strerror out) out, self, calls)
  else
    (LuaResult.boolean true, self, calls)

/-! ## Construction (`process_new`, lines 58-143) -/

/-- Lua raw table access `t[i]` on a sequence: nil outside `1..#t`. -/
def lua_rawgeti (t : List String) (i : Nat) : Option String :=
  if 1 ≤ i ∧ i ≤ t.length then t.get? (i - 1) else none

/-- The fill loop of lines 65-70, started at index `i` with `n` iterations
left: each iteration does `lua_rawgeti(L, 1, i + 1)` followed by
`luaL_checkstring`, which raises a Lua argument error when the fetched value
is nil. -/
def argvReads (argv : List String) : Nat → Nat → Except String (List String)
  | _, 0 => Except.ok []
  | i, n + 1 =>
    match lua_rawgeti argv (i + 1) with
    | none => Except.error "bad argument (string expected, got nil)"
    | some s =>
      match argvReads argv (i + 1) n with
      | Except.ok rest => Except.ok (s :: rest)
      | Except.error e => Except.error e

/-- Whether an `Except` is in its ok branch. -/
def exceptOk {ε α : Type} : Except ε α → Bool
  | Except.ok _ => true
  | Except.error _ => false

/-- Accounting of the argument-vector serialization: how many pointer slots
were malloc'd, at which index the NULL terminator was stored, and the result
of the string-fetching loop. -/
structure ArgvSerialization where
  allocSlots : Nat
  terminatorIndex : Nat
  result : Except String (List String)

/-- Lines 60-70. `cmd_len = lua_rawlen(L, 1) + 1`; `malloc` of `cmd_len`
pointer slots; the terminator is written by `cmd[cmd_len] = NULL`, i.e. at
index `cmd_len`; then the loop `for (i = 0; i < cmd_len; i++)` fetches
`cmd_len` table entries. -/
def serialize_argv (argv : List String) : ArgvSerialization :=
  let cmd_len := argv.length + 1
  { allocSlots := cmd_len
    terminatorIndex := cmd_len
    result := argvReads argv 0 cmd_len }

/-- Lines 106-108. One environment entry: `lua_concat(L, 3)` joins the top
three stack values in bottom-to-top order, which at that point are the value,
the literal "=", and the copy of the key pushed by `lua_pushvalue(L, -3)`. -/
def env_entry (key value : String) : String :=
  value ++ "=" ++ key

/-- Accounting of the environment-vector serialization. -/
structure EnvSerialization where
  allocSlots : Nat
  terminatorIndex : Nat
  entries : List String

/-- Lines 90-112. The counting loop leaves `env_len = n + 1` for an overlay of
`n` pairs; `malloc` of `env_len` pointer slots; the terminator is written by
`env[env_len] = NULL`, i.e. at index `env_len`; the second loop stores one
concatenated entry per pair at indices `0..n-1`. -/
def serialize_env (env : List (String × String)) : EnvSerialization :=
  let env_len := env.length + 1
  { allocSlots := env_len
    terminatorIndex := env_len
    entries := env.map fun kv => env_entry kv.1 kv.2 }

/-- Lines 79-83. The redirect-mode check of `process_new`: construction is
rejected exactly when one of the three requested modes compares greater than
`REPROC_REDIRECT_STDOUT`. -/
def redirectUnsupported (redirect_in redirect_out redirect_err : Int) : Bool :=
  redirect_in > REPROC_REDIRECT_STDOUT
    || redirect_out > REPROC_REDIRECT_STDOUT
    || redirect_err > REPROC_REDIRECT_STDOUT

/-- The options read from the second Lua argument (lines 72-76, 90), with the
defaults `luaL_optnumber`/`luaL_optstring`/`luaL_getsubtable` supply. -/
structure SpawnOptions where
  timeout : Int := 0
  cwd : Option String := none
  redirect_in : Int := REPROC_REDIRECT_DEFAULT
  redirect_out : Int := REPROC_REDIRECT_DEFAULT
  redirect_err : Int := REPROC_REDIRECT_DEFAULT
  env : List (String × String) := []
  deriving Repr

/-- Environment behavior passed to `reproc_start`. -/
inductive EnvBehavior where
  | extend
  | replace
  deriving DecidableEq, Repr

/-- The `reproc_options` record built at lines 118-131. -/
structure reproc_options where
  working_directory : Option String
  deadline : Int
  nonblocking : Bool
  env_behavior : EnvBehavior
  env_extra : List String
  redirect_in : Int
  redirect_out : Int
  redirect_err : Int
  deriving DecidableEq, Repr

/-- Lines 115-132. The options record handed to the native start call:
working directory and deadline from the caller, non-blocking forced on,
environment behavior `REPROC_ENV_EXTEND` with the serialized overlay entries,
and the three validated redirect modes. -/
def startOptions (opts : SpawnOptions) : reproc_options :=
  { working_directory := opts.cwd
    deadline := opts.timeout
    nonblocking := true
    env_behavior := EnvBehavior.extend
    env_extra := (serialize_env opts.env).entries
    redirect_in := opts.redirect_in
    redirect_out := opts.redirect_out
    redirect_err := opts.redirect_err }

/-- Outcome of `process_new` as seen by the Lua caller: a fresh handle, the
`(nil, literal-message)` pair of the redirect rejection, the
`(nil, message, code)` triple of a native failure, or a raised Lua error
(`luaL_checkstring` on a nil table slot). -/
inductive NewResult where
  | handle (p : process_t)
  | failPair (msg : String)
  | errorTriple (msg : String) (code : Int)
  | luaError (msg : String)
  deriving DecidableEq, Repr

/-- Whether a construction outcome is a handle. -/
def isHandle : NewResult → Bool
  | NewResult.handle _ => true
  | _ => false

/-- Lines 58-143. `process_new` in source order: the argument-vector
serialization (whose fetch loop raises before anything native runs when it
hits a nil slot), the redirect check, the environment serialization, then
`reproc_new` and `reproc_start` (native result supplied by the oracle
`startResult`); on native failure the error triple, on success a handle with
`running = true` (its `returncode` field is left uninitialized by the source,
modelled by the oracle `uninitReturncode`). -/
def process_new (argv : List String) (opts : SpawnOptions)
    (startResult : Int) (uninitReturncode : Int) : NewResult × List NativeCall :=
  let a := serialize_argv argv
  match a.result with
  | Except.error msg => (NewResult.luaError msg, [])
  | Except.ok _cmd =>
    if redirectUnsupported opts.redirect_in opts.redirect_out opts.redirect_err then
      (NewResult.failPair "redirect to handles, FILE* and paths are not supported", [])
    else
      let _o := startOptions opts
      let calls := [NativeCall.newProc, NativeCall.start]
      if startResult < 0 then
        (NewResult.errorTriple (reproc_strerror startResult) startResult, calls)
      else
        (NewResult.handle { process := true, running := true, returncode := uninitReturncode },
          calls)

/-! ## Branch lemmas for the polling state machine -/

/-- A timed-out native wait leaves the handle untouched. -/
theorem poll_process_timeout (proc : process_t) (t : Int) :
    poll_process proc t REPROC_ETIMEDOUT = (REPROC_ETIMEDOUT, proc, [NativeCall.wait t]) := by
  simp [poll_process]

/-- Any non-timeout native wait result is cached and clears `running`. -/
theorem poll_process_exit (proc : process_t) (t r : Int) (hr : r ≠ REPROC_ETIMEDOUT) :
    poll_process proc t r =
      (r, { proc with running := false, returncode := r }, [NativeCall.wait t]) := by
  simp [poll_process, hr]

/-- On a timed-out native result, `f_wait` returns the timeout error triple
and an unchanged handle, after one native wait call. -/
theorem f_wait_timeout (self : process_t) (t : Int) :
    f_wait self t REPROC_ETIMEDOUT =
      (LuaResult.errorTriple (reproc_strerror REPROC_ETIMEDOUT) REPROC_ETIMEDOUT, self,
        [NativeCall.wait t]) := by
  simp [f_wait, poll_process, REPROC_ETIMEDOUT, reproc_strerror]

/-- On any non-timeout native result, `f_wait` returns that result as a
number and the handle transitions to not-running with the result cached. -/
theorem f_wait_exit (self : process_t) (t r : Int) (hr : r ≠ REPROC_ETIMEDOUT) :
    f_wait self t r =
      (LuaResult.value r, { self with running := false, returncode := r },
        [NativeCall.wait t]) := by
  simp [f_wait, poll_process, hr]

/-- On any non-timeout native result, `f_returncode` pushes that result. -/
theorem f_returncode_exit (self : process_t) (r : Int) (hr : r ≠ REPROC_ETIMEDOUT) :
    f_returncode self r =
      (LuaResult.value r, { self with running := false, returncode := r },
        [NativeCall.wait 0]) := by
  simp [f_returncode, poll_process, hr]

/-- On a timed-out native result against a handle that is already not
running, `f_returncode` pushes the poll result (the timeout code). -/
theorem f_returncode_timeout_exited (self : process_t) (h : self.running = false) :
    f_returncode self REPROC_ETIMEDOUT =
      (LuaResult.value REPROC_ETIMEDOUT, self, [NativeCall.wait 0]) := by
  simp [f_returncode, poll_process, h]

/-! ## Theorems -/

/-- Claim C1, counterexample: a handle already in the Exited state
(`running = false`, cached code 7) on which `wait` is called performs one
further native wait call (not zero), and when the native layer answers 5 the
cached exit code becomes 5, not the previous 7 — `poll_process` has no early
return for an exited handle. -/
theorem exited_handle_repolled_and_cache_overwritten :
    (f_wait ⟨true, false, 7⟩ 0 5).2.2.length = 1 ∧
    (f_wait ⟨true, false, 7⟩ 0 5).2.1.returncode = 5 ∧
    (f_wait ⟨true, false, 7⟩ 0 5).1 = LuaResult.value 5 ∧
    ¬ (5 : Int) = 7 := by decide

/-- Claim C1, amended: once `running = false` it never becomes true again —
`poll`, `wait`, `running` and `returncode` leave the handle not running and
`running()` reports false — but each such call performs exactly one further
native wait call, and the cached exit code is overwritten by any non-timeout
native result; when the native layer re-reports the cached status (as the
trusted layer does for an exited process), `wait` and `returncode` return
that identical code. -/
theorem exited_handle_poll_behavior (s : process_t) (t r : Int)
    (h : s.running = false) :
    (f_wait s t r).2.1.running = false ∧
    (f_wait s t r).2.2 = [NativeCall.wait t] ∧
    (f_returncode s r).2.1.running = false ∧
    (f_returncode s r).2.2 = [NativeCall.wait 0] ∧
    (f_running s r).1 = LuaResult.boolean false ∧
    (f_wait s t r).2.1.returncode = (if r = REPROC_ETIMEDOUT then s.returncode else r) ∧
    (r = s.returncode → r ≠ REPROC_ETIMEDOUT →
      (f_wait s t r).1 = LuaResult.value s.returncode ∧
      (f_returncode s r).1 = LuaResult.value s.returncode) := by
  by_cases hr : r = REPROC_ETIMEDOUT
  · subst hr
    rw [f_wait_timeout, f_returncode_timeout_exited s h]
    refine ⟨h, rfl, h, rfl, ?_, ?_, ?_⟩
    · simp [f_running, poll_process, h]
    · simp
    · intro _ hne
      exact absurd rfl hne
  · rw [f_wait_exit s t r hr, f_returncode_exit s r hr]
    refine ⟨rfl, rfl, rfl, rfl, ?_, ?_, ?_⟩
    · simp [f_running, poll_process, hr]
    · simp [hr]
    · intro he _
      subst he
      exact ⟨rfl, rfl⟩

/-- Claim C1, witness of the amended theorem at a concrete exited handle. -/
theorem exited_handle_poll_behavior_witness :
    (f_wait ⟨true, false, 7⟩ 0 7).2.1.running = false :=
  (exited_handle_poll_behavior ⟨true, false, 7⟩ 0 7 rfl).1

/-- Claim C2, counterexample: a running handle whose poll observes native
result 3 transitions to Exited with cached code 3, but the cache is not
permanent — a second poll whose native result is 4 overwrites it with 4. -/
theorem observed_exit_code_not_permanent :
    (f_wait ⟨true, true, 0⟩ 0 3).2.1.running = false ∧
    (f_wait ⟨true, true, 0⟩ 0 3).2.1.returncode = 3 ∧
    (f_wait (f_wait ⟨true, true, 0⟩ 0 3).2.1 0 4).2.1.returncode = 4 ∧
    ¬ (4 : Int) = 3 := by decide

/-- Claim C2, amended: for a poll/wait on a Running handle, a timed-out
native result leaves the handle unchanged (still Running) and the caller
receives the dedicated timeout error triple (message plus numeric code), not
a fabricated exit code; any other native result (negative signal values
included) transitions the handle to Exited with that result cached and
returned, and the cache keeps that value across subsequent timed-out polls —
though a later poll with a different non-timeout native result would
overwrite it. -/
theorem running_poll_transition (s : process_t) (t r : Int)
    (h : s.running = true) :
    (r = REPROC_ETIMEDOUT →
      (f_wait s t r).2.1.running = true ∧
      (f_wait s t r).2.1 = s ∧
      (f_wait s t r).1 =
        LuaResult.errorTriple (reproc_strerror REPROC_ETIMEDOUT) REPROC_ETIMEDOUT) ∧
    (r ≠ REPROC_ETIMEDOUT →
      (f_wait s t r).2.1.running = false ∧
      (f_wait s t r).2.1.returncode = r ∧
      (f_wait s t r).1 = LuaResult.value r ∧
      ∀ t2 : Int, (f_wait (f_wait s t r).2.1 t2 REPROC_ETIMEDOUT).2.1.returncode = r) := by
  constructor
  · intro hr
    subst hr
    rw [f_wait_timeout]
    exact ⟨h, rfl, rfl⟩
  · intro hr
    rw [f_wait_exit s t r hr]
    refine ⟨rfl, rfl, rfl, fun t2 => ?_⟩
    rw [f_wait_timeout]

/-- Claim C2, witness of the amended theorem: the timed-out branch at a
concrete running handle. -/
theorem running_poll_transition_witness :
    (f_wait ⟨true, true, 0⟩ 0 REPROC_ETIMEDOUT).2.1.running = true ∧
    (f_wait ⟨true, true, 0⟩ 0 REPROC_ETIMEDOUT).2.1 = ⟨true, true, 0⟩ ∧
    (f_wait ⟨true, true, 0⟩ 0 REPROC_ETIMEDOUT).1 =
      LuaResult.errorTriple (reproc_strerror REPROC_ETIMEDOUT) REPROC_ETIMEDOUT :=
  (running_poll_transition ⟨true, true, 0⟩ 0 REPROC_ETIMEDOUT rfl).1 rfl

/-- Claim C3, counterexample: stdout-merge requested on stdin — a value
outside {default, pipe, parent, discard} on a stream other than stderr —
passes the redirect check instead of being rejected: the check only rejects
modes numerically greater than `REPROC_REDIRECT_STDOUT`. -/
theorem stdout_merge_on_stdin_passes_validation :
    redirectUnsupported REPROC_REDIRECT_STDOUT REPROC_REDIRECT_DEFAULT
      REPROC_REDIRECT_DEFAULT = false ∧
    ¬ REPROC_REDIRECT_STDOUT ∈
      ([REPROC_REDIRECT_DEFAULT, REPROC_REDIRECT_PIPE, REPROC_REDIRECT_PARENT,
        REPROC_REDIRECT_DISCARD] : List Int) := by decide

/-- Claim C3, amended: the redirect check rejects construction exactly when
one of the three requested modes is numerically greater than stdout-merge
(the handle, FILE* and path values); every mode up to stdout-merge passes on
every stream — in particular stderr = stdout-merge passes, but stdout-merge
on stdin or stdout also passes rather than being rejected. -/
theorem redirect_check_exactly_above_stdout_merge :
    (∀ r_in r_out r_err : Int,
      redirectUnsupported r_in r_out r_err = false ↔
        r_in ≤ REPROC_REDIRECT_STDOUT ∧ r_out ≤ REPROC_REDIRECT_STDOUT ∧
          r_err ≤ REPROC_REDIRECT_STDOUT) ∧
    redirectUnsupported REPROC_REDIRECT_DEFAULT REPROC_REDIRECT_DEFAULT
      REPROC_REDIRECT_STDOUT = false ∧
    redirectUnsupported REPROC_REDIRECT_DEFAULT REPROC_REDIRECT_HANDLE
      REPROC_REDIRECT_DEFAULT = true ∧
    redirectUnsupported REPROC_REDIRECT_FILE REPROC_REDIRECT_DEFAULT
      REPROC_REDIRECT_DEFAULT = true ∧
    redirectUnsupported REPROC_REDIRECT_DEFAULT REPROC_REDIRECT_DEFAULT
      REPROC_REDIRECT_PATH = true := by
  refine ⟨fun a b c => ?_, by decide, by decide, by decide, by decide⟩
  simp [redirectUnsupported, REPROC_REDIRECT_STDOUT, not_lt, and_assoc]

/-- Claim C3, witness of the amended theorem: stderr = stdout-merge passes
the check, derived from the iff at a concrete triple. -/
theorem redirect_check_exactly_above_stdout_merge_witness :
    redirectUnsupported REPROC_REDIRECT_DEFAULT REPROC_REDIRECT_DEFAULT
      REPROC_REDIRECT_STDOUT = false :=
  (redirect_check_exactly_above_stdout_merge.1 REPROC_REDIRECT_DEFAULT
    REPROC_REDIRECT_DEFAULT REPROC_REDIRECT_STDOUT).mpr
    ⟨by decide, by decide, by decide⟩

/-- Claim C4, code evaluated at the failing input `argv = ["ls"]` (count 1):
the source allocates `count + 1 = 2` pointer slots but writes the NULL
terminator at index 2 — one past the allocation, not at index 1, the last
allocated slot — and its fill loop fetches `count + 1` table entries, so the
fetch of the nonexistent entry 2 raises an argument error. -/
theorem argv_terminator_written_out_of_bounds :
    (serialize_argv ["ls"]).allocSlots = 2 ∧
    (serialize_argv ["ls"]).terminatorIndex = 2 ∧
    ¬ (serialize_argv ["ls"]).terminatorIndex < (serialize_argv ["ls"]).allocSlots ∧
    (serialize_argv ["ls"]).terminatorIndex ≠ 1 ∧
    exceptOk (serialize_argv ["ls"]).result = false := by decide

/-- Claim C5, code evaluated at the failing input, overlay `{FOO: "bar"}`:
the options handed to the native start do use extend behavior, but the
serialized entry is "bar=FOO" — `lua_concat` joins value, "=", key in that
order — not the "key=value" shape the source's own comment and the spec
state. -/
theorem env_overlay_serialized_value_equals_key :
    (startOptions { env := [("FOO", "bar")] }).env_behavior = EnvBehavior.extend ∧
    (startOptions { env := [("FOO", "bar")] }).env_extra = ["bar=FOO"] ∧
    (startOptions { env := [("FOO", "bar")] }).env_extra ≠ ["FOO=bar"] := by decide

/-- Claim C6: on a handle still holding its native reference, destroy runs
the staged stop sequence kill/kill/terminate, each with zero grace, then one
native destroy, and nulls the reference; a second destroy on the resulting
handle performs no native call and changes nothing, so the native destroy
runs exactly once across both calls. -/
theorem gc_staged_stop_and_idempotent (s : process_t) (h : s.process = true) :
    (f_gc s).2 =
      [NativeCall.stop (StopAction.kill, 0) (StopAction.kill, 0) (StopAction.terminate, 0),
        NativeCall.destroy] ∧
    (f_gc s).1.process = false ∧
    f_gc (f_gc s).1 = ((f_gc s).1, []) ∧
    destroyCount ((f_gc s).2 ++ (f_gc (f_gc s).1).2) = 1 := by
  simp [f_gc, h, destroyCount]

/-- Claim C6, witness at a concrete live handle. -/
theorem gc_staged_stop_and_idempotent_witness :
    (f_gc ⟨true, true, 0⟩).2 =
      [NativeCall.stop (StopAction.kill, 0) (StopAction.kill, 0) (StopAction.terminate, 0),
        NativeCall.destroy] :=
  (gc_staged_stop_and_idempotent ⟨true, true, 0⟩ rfl).1

/-- Claim C7, counterexample: a native would-block result of write — a
negative code — is handed back as the bare number with no message, and the
same result on read yields a plain empty byte string; neither is the
message-plus-code error the claim requires for every negative result. -/
theorem wouldblock_result_not_surfaced_with_message :
    isErrorTriple (f_write ⟨true, true, 0⟩ [65] REPROC_EWOULDBLOCK).1 = false ∧
    (f_write ⟨true, true, 0⟩ [65] REPROC_EWOULDBLOCK).1 =
      LuaResult.value REPROC_EWOULDBLOCK ∧
    REPROC_EWOULDBLOCK < 0 ∧
    isErrorTriple (g_read ⟨true, true, 0⟩ 1 4096 REPROC_EWOULDBLOCK []).1 = false ∧
    (g_read ⟨true, true, 0⟩ 1 4096 REPROC_EWOULDBLOCK []).1 = LuaResult.bytes [] := by
  decide

/-- Claim C7, amended: a broken-pipe native result of write or read is
surfaced immediately as the error triple carrying the message and the numeric
code, and a successful write returns the number of bytes accepted; but other
negative native results are not surfaced that way — write hands back the bare
negative number without a message, and read yields an empty byte string,
discarding the code. -/
theorem stream_error_surfacing (s : process_t) (data : List Int) (stream : Int)
    (sz : Nat) (buf : List Int) (out : Int) :
    (out = REPROC_EPIPE →
      (f_write s data out).1 =
        LuaResult.errorTriple (reproc_strerror REPROC_EPIPE) REPROC_EPIPE ∧
      (g_read s stream sz out buf).1 =
        LuaResult.errorTriple (reproc_strerror REPROC_EPIPE) REPROC_EPIPE) ∧
    (0 ≤ out → (f_write s data out).1 = LuaResult.value out) ∧
    (out ≠ REPROC_EPIPE →
      isErrorTriple (f_write s data out).1 = false ∧
      (f_write s data out).1 = LuaResult.value out) ∧
    (out < 0 → out ≠ REPROC_EPIPE →
      (g_read s stream sz out buf).1 = LuaResult.bytes []) := by
  refine ⟨?_, ?_, ?_, ?_⟩
  · intro he
    subst he
    exact ⟨by simp [f_write], by simp [g_read, REPROC_EPIPE]⟩
  · intro hnn
    have hne : out ≠ REPROC_EPIPE := by
      simp only [REPROC_EPIPE]
      omega
    simp [f_write, hne]
  · intro hne
    exact ⟨by simp [f_write, hne, isErrorTriple], by simp [f_write, hne]⟩
  · intro hneg hne
    have hge : ¬ (0 ≤ out) := not_le.mpr hneg
    simp [g_read, hne, hge]

/-- Claim C7, witness of the amended theorem: the broken-pipe branch of write
at a concrete input. -/
theorem stream_error_surfacing_witness :
    (f_write ⟨true, true, 0⟩ [65] REPROC_EPIPE).1 =
      LuaResult.errorTriple (reproc_strerror REPROC_EPIPE) REPROC_EPIPE ∧
    (g_read ⟨true, true, 0⟩ 1 4096 REPROC_EPIPE []).1 =
      LuaResult.errorTriple (reproc_strerror REPROC_EPIPE) REPROC_EPIPE :=
  (stream_error_surfacing ⟨true, true, 0⟩ [65] 1 4096 [] REPROC_EPIPE).1 rfl

/-- Claim C8: constructing with an empty argument sequence fails before
touching the native layer — the trace of native calls is empty, no handle is
returned, and the outcome is the argument error raised while fetching the
nonexistent first element. -/
theorem empty_argv_rejected_before_native (opts : SpawnOptions) (sr ur : Int) :
    (process_new [] opts sr ur).2 = [] ∧
    isHandle (process_new [] opts sr ur).1 = false ∧
    (process_new [] opts sr ur).1 =
      NewResult.luaError "bad argument (string expected, got nil)" :=
  ⟨rfl, rfl, rfl⟩

/-- Claim C8, witness at concrete options and oracles. -/
theorem empty_argv_rejected_before_native_witness :
    (process_new [] {} 0 0).2 = [] :=
  (empty_argv_rejected_before_native {} 0 0).1

/-- Claim C9: read, write and close-stream leave the whole handle — native
reference, `running` flag and cached `returncode` — exactly as it was, for
every handle and every native outcome; only the polling operations mutate
it. -/
theorem stream_ops_preserve_status (s : process_t) (stream : Int) (sz : Nat)
    (out : Int) (buf : List Int) (data : List Int) (wout : Int)
    (cstream : Int) (cout : Int) :
    (g_read s stream sz out buf).2.1 = s ∧
    (f_write s data wout).2.1 = s ∧
    (f_close_stream s cstream cout).2.1 = s := by
  unfold g_read f_write f_close_stream
  refine ⟨?_, ?_, ?_⟩ <;> (repeat' split) <;> rfl

/-- Claim C9, witness at a concrete handle and outcomes. -/
theorem stream_ops_preserve_status_witness :
    (g_read ⟨true, true, 0⟩ 1 4096 0 []).2.1 = (⟨true, true, 0⟩ : process_t) :=
  (stream_ops_preserve_status ⟨true, true, 0⟩ 1 4096 0 [] [] 0 0 0).1

/-- Claim C10, code evaluated at the failing input, an overlay of one entry:
the source allocates `n + 1 = 2` pointer slots and stores the single entry at
index 0, but writes the NULL terminator at index 2 — one past the allocation,
not at index 1, the last allocated slot, which is left uninitialized. -/
theorem env_terminator_written_out_of_bounds :
    (serialize_env [("FOO", "bar")]).allocSlots = 2 ∧
    (serialize_env [("FOO", "bar")]).terminatorIndex = 2 ∧
    ¬ (serialize_env [("FOO", "bar")]).terminatorIndex <
      (serialize_env [("FOO", "bar")]).allocSlots ∧
    (serialize_env [("FOO", "bar")]).terminatorIndex ≠ 1 ∧
    (serialize_env [("FOO", "bar")]).entries.length = 1 := by decide

end LiteXLProcess
